import Mathlib

/-!
# Verification of the node-pg-jobs job lifecycle controller

Shallow embedding of `src/lib/jobs.js`: the job data model, the per-job
service cycle (`serviceJob`, `updateJob`, `processJob`), the two entry
points (`Jobs.process` via `async.whilst`, and `Jobs.processNow`), and the
module-level stop flag. Every observable effect (event emissions, store
calls, transaction begin/commit/rollback, connection release, sleeps, and
the user-facing completion callback) is recorded in an `Act` trace so
that ordering properties can be stated.

The store implementation (`src/models/jobs.js`) is not part of the sources;
where its behaviour matters it is modelled from the spec's Store contract
(section 6), and where only its success/failure matters the controller
functions take the store's response as an explicit oracle argument, so the
theorems quantify over all store behaviours.
-/

/-- A job row as described by the spec's data model: identifier, freeform
payload (rendered as a `Nat` token, opaque to the controller), `due_at`
(`none` means inactive), and `processed_at` (`none` means never processed). -/
structure Job where
  job_id : Nat
  data : Nat
  due_at : Option Nat
  processed_at : Option Nat
deriving Repr, DecidableEq

/-- Events emitted on `Jobs.eventEmitter` in `src/lib/jobs.js`. -/
inductive Ev
  | jobUpdated
  | maybeServiceJob
  | drain
  | processCommitted
  | processNowCommitted
  | stopProcess
deriving Repr, DecidableEq

/-- Opaque JavaScript error values flowing through callbacks: errors coming
from the store or the user function are tokens `code n`; the controller
itself creates exactly one error, `new Error('Could not locate job')` in
`getJobProcessor` (the spec's `JobNotFoundError`). -/
inductive JsErr
  | code (n : Nat)
  | couldNotLocateJob
deriving Repr, DecidableEq

/-- Observable actions of one controller run, in execution order. -/
inductive Act
  | emit (e : Ev)
  | txBegin
  | txCommit
  | txRollback
  | callWrite
  | callSetProcessedNow
  | callNextToProcess
  | callObtainLock
  | callUnlock
  | callGetDataForJob
  | releaseClient
  | sleep (ms : Nat)
  | done (err : Option JsErr)
deriving Repr, DecidableEq

/-- What the user processing function reports through
`processingComplete(err, newJobData, processIn)`. `processIn` is
`Option (Option Nat)`: the outer `none` is a JavaScript `undefined`
(argument omitted), `some none` is an explicit `null`, `some (some d)` a
delay of `d` ms. -/
inductive UserOutcome
  | failure (e : JsErr)
  | success (newJobData : Nat) (processIn : Option (Option Nat))
deriving Repr, DecidableEq

/-- Store responses for the two writes of a service cycle: `none` means the
operation succeeds, `some e` that the store reports error `e`. The
controller passes a callback to `jobsModel.write` but none to
`jobsModel.setProcessedNow` (line 68 of `src/lib/jobs.js`). -/
structure StoreOracle where
  spnFail : Option JsErr
  writeFail : Option JsErr
deriving Repr, DecidableEq

/-- The healthy store: every operation succeeds. -/
def healthyStore : StoreOracle := ⟨none, none⟩

/-- Outcome of fetching a job snapshot (`jobsModel.nextToProcess` or
`jobsModel.getDataForJob`): the callback receives `(err, jobSnap)`. -/
inductive FetchResult
  | fetchError (e : JsErr)
  | noJob
  | gotJob (job : Job)
deriving Repr, DecidableEq

namespace jobsModel

/-- Modelled from the spec: `jobsModel.write` for an existing id (the
service-cycle path; `src/models/jobs.js` is not in the sources). Section 6:
"insert if id is null, else update in place; computes `due_at` from delay
(null => inactive)". The update rewrites `data` and sets
`due_at = now + delay`, or `none` when the delay is null. -/
def write (store : List Job) (jobId : Nat) (processIn : Option Nat)
    (jobData : Nat) (now : Nat) : List Job :=
  store.map fun j =>
    if j.job_id = jobId then
      { j with data := jobData, due_at := processIn.map (fun d => now + d) }
    else j

/-- Modelled from the spec: `jobsModel.setProcessedNow` "stamps completion
time within the active transaction" (section 6). -/
def setProcessedNow (store : List Job) (jobId : Nat) (now : Nat) : List Job :=
  store.map fun j =>
    if j.job_id = jobId then { j with processed_at := some now } else j

/-- Modelled from the spec: `jobsModel.obtainLock` "locks a specific job for
`ProcessNow`; fails if the job does not exist or cannot be locked"
(section 6); the spec's error taxonomy calls this failure
`JobNotFoundError` (section 7). -/
def obtainLock (store : List Job) (jobId : Nat) : Option JsErr :=
  if store.any (fun j => j.job_id == jobId) then none
  else some JsErr.couldNotLocateJob

/-- Modelled from the spec: `jobsModel.getDataForJob` returns the snapshot
for a specific id (section 6). -/
def getDataForJob (store : List Job) (jobId : Nat) : FetchResult :=
  match store.find? (fun j => j.job_id == jobId) with
  | some j => FetchResult.gotJob j
  | none => FetchResult.noJob

end jobsModel

/-- JavaScript `a || b` on the optional `pollInterval` configuration value:
`undefined` and `0` are falsy, so both yield the default. -/
def jsOr (p : Option Nat) (d : Nat) : Nat :=
  match p with
  | none => d
  | some v => if v = 0 then d else v

/-- `updateJob` (lines 48-58): normalises an omitted `processIn` to null
(line 49, here `Option.join`), calls `jobsModel.write`, and on success
emits `jobUpdated` before invoking the callback; a write error is passed
to the callback unchanged. Returns the transaction's job view (or the
error) together with the action trace. -/
def updateJob (tx : List Job) (jobId : Nat) (newJobData : Nat)
    (processIn : Option (Option Nat)) (writeFail : Option JsErr) (now : Nat) :
    Except JsErr (List Job) × List Act :=
  match writeFail with
  | some e => (Except.error e, [Act.callWrite])
  | none =>
      (Except.ok (jobsModel.write tx jobId processIn.join newJobData now),
       [Act.callWrite, Act.emit Ev.jobUpdated])

/-- `serviceJob` (lines 60-72): runs the user function on the locked
snapshot. On a user error the error goes straight to the callback; on
success it calls `jobsModel.setProcessedNow` with no callback (so a store
error there is discarded and the stamp simply does not happen) and then
`updateJob`. -/
def serviceJob (tx : List Job) (job : Job) (user : UserOutcome)
    (oracle : StoreOracle) (now : Nat) :
    Except JsErr (List Job) × List Act :=
  match user with
  | UserOutcome.failure e => (Except.error e, [])
  | UserOutcome.success newData processIn =>
      let tx1 := if oracle.spnFail.isNone
        then jobsModel.setProcessedNow tx job.job_id now
        else tx
      let r := updateJob tx1 job.job_id newData processIn oracle.writeFail now
      (r.1, Act.callSetProcessedNow :: r.2)

/-- The notification emitted in `txDone` (line 173): `processNowCommitted`
for the immediate entry point, `processCommitted` for the polling one. -/
def commitEv (now? : Bool) : Ev :=
  if now? then Ev.processNowCommitted else Ev.processCommitted

/-- `processJob` (lines 161-177): open a transaction around `serviceJob`,
commit when the cycle succeeded and roll back when it reported an error;
either way `txDone` emits the commit notification and passes the cycle's
error (if any) to the iteration callback. The returned job list is the
committed store state: on rollback the pre-cycle state. -/
def processJob (store : List Job) (job : Job) (user : UserOutcome)
    (oracle : StoreOracle) (now? : Bool) (now : Nat) :
    List Job × List Act × Option JsErr :=
  let r := serviceJob store job user oracle now
  match r.1 with
  | Except.error e =>
      (store,
       Act.txBegin :: r.2 ++ [Act.txRollback, Act.emit (commitEv now?)],
       some e)
  | Except.ok tx2 =>
      (tx2,
       Act.txBegin :: r.2 ++ [Act.txCommit, Act.emit (commitEv now?)],
       none)

/-- The callback built by `getJobProcessor` (lines 147-159), applied to the
fetch outcome: a fetch error goes to the callback; no snapshot means
`Error('Could not locate job')` on the `processNow` path, but on the
polling path a `drain` event and a sleep of `pollInterval || 1000` ms; a
snapshot is serviced by `processJob`. -/
def getJobProcessor (now? : Bool) (pollInterval : Option Nat)
    (store : List Job) (fetch : FetchResult) (user : UserOutcome)
    (oracle : StoreOracle) (now : Nat) :
    List Job × List Act × Option JsErr :=
  match fetch with
  | FetchResult.fetchError e => (store, [], some e)
  | FetchResult.noJob =>
      if now? then (store, [], some JsErr.couldNotLocateJob)
      else (store,
            [Act.emit Ev.drain, Act.sleep (jsOr pollInterval 1000)],
            none)
  | FetchResult.gotJob j => processJob store j user oracle now? now

/-- Everything `Jobs.processNow` needs from its collaborators for one call:
the connection attempt, the `obtainLock` response, the `getDataForJob`
outcome, the user function's report and the store oracle. -/
structure NowInput where
  connectFail : Option JsErr
  lockFail : Option JsErr
  fetch : FetchResult
  user : UserOutcome
  oracle : StoreOracle
deriving Repr, DecidableEq

/-- `Jobs.processNow` (lines 116-141). A connect error goes straight to
`done`. An `obtainLock` error also goes straight to `done` (line 128) -
without `unlock` and without `releaseClient`. Otherwise `getDataForJob`
feeds `getJobProcessor true`, whose callback `processed` unlocks, releases
the client and calls `done` with the cycle's error. -/
def Jobs.processNow (inp : NowInput) (pollInterval : Option Nat)
    (store : List Job) (now : Nat) : List Job × List Act :=
  match inp.connectFail with
  | some e => (store, [Act.done (some e)])
  | none =>
      match inp.lockFail with
      | some e => (store, [Act.callObtainLock, Act.done (some e)])
      | none =>
          let r := getJobProcessor true pollInterval store inp.fetch
            inp.user inp.oracle now
          (r.1,
           Act.callObtainLock :: Act.callGetDataForJob :: r.2.1
             ++ [Act.callUnlock, Act.releaseClient,
                 Act.done r.2.2])

/-- `Jobs.processNow` run against the concrete spec-modelled store: the
lock response and the snapshot come from the job list itself. -/
def Jobs.processNowOn (store : List Job) (jobId : Nat) (user : UserOutcome)
    (oracle : StoreOracle) (pollInterval : Option Nat) (now : Nat) :
    List Job × List Act :=
  Jobs.processNow
    ⟨none, jobsModel.obtainLock store jobId,
     jobsModel.getDataForJob store jobId, user, oracle⟩
    pollInterval store now

/-- One scripted iteration of the polling loop: the store's answer to
`nextToProcess`, the user function's report, the store oracle for the
cycle, and whether `Jobs.stopProcessing()` gets called while this
iteration is in flight. -/
structure IterInput where
  fetch : FetchResult
  user : UserOutcome
  oracle : StoreOracle
  stopDuring : Bool
deriving Repr, DecidableEq

/-- The `iterator` of `async.whilst` (lines 101-107): emit
`maybeServiceJob`, query `nextToProcess`, hand the outcome to
`getJobProcessor false`. -/
def processIter (pollInterval : Option Nat) (store : List Job)
    (it : IterInput) (now : Nat) : List Job × List Act × Option JsErr :=
  let r := getJobProcessor false pollInterval store it.fetch it.user
    it.oracle now
  (r.1,
   Act.emit Ev.maybeServiceJob :: Act.callNextToProcess :: r.2.1,
   r.2.2)

/-- The `finish` continuation of `async.whilst` (lines 108-112): release
the client, emit `stopProcess`, and call `done()` - with no argument, so
any error that ended the loop is dropped. -/
def finishTrace : List Act :=
  [Act.releaseClient, Act.emit Ev.stopProcess, Act.done none]

/-- How a scripted loop run ended. -/
inductive LoopOutcome
  | finished
  | outOfScript
deriving Repr, DecidableEq

/-- `async.whilst(Jobs.continueProcessing, iterator, finish)` (line 99):
while the module flag is true, run one iteration; an iteration that calls
back with an error ends the loop and runs `finish`; otherwise the flag is
re-read (false when `stopProcessing` was called during the iteration) and
the loop continues. `outOfScript` marks a run whose input script ran out
while the loop would still poll. -/
def runWhilst (pollInterval : Option Nat) :
    List IterInput → Bool → List Job → Nat →
    List Job × List Act × LoopOutcome
  | _, false, store, _ => (store, finishTrace, LoopOutcome.finished)
  | [], true, store, _ => (store, [], LoopOutcome.outOfScript)
  | it :: rest, true, store, now =>
      let r := processIter pollInterval store it now
      match r.2.2 with
      | some _ => (r.1, r.2.1 ++ finishTrace, LoopOutcome.finished)
      | none =>
          let r2 := runWhilst pollInterval rest (!it.stopDuring) r.1 (now + 1)
          (r2.1, r.2.1 ++ r2.2.1, r2.2.2)

/-- `Jobs.process` (lines 92-113): sets the module-level flag true, connects,
and on a connect error calls `done(err)` immediately; otherwise starts the
`async.whilst` loop with the flag true. -/
def Jobs.process (pollInterval : Option Nat) (connectFail : Option JsErr)
    (iters : List IterInput) (store : List Job) (now : Nat) :
    List Job × List Act × LoopOutcome :=
  match connectFail with
  | some e => (store, [Act.done (some e)], LoopOutcome.finished)
  | none => runWhilst pollInterval iters true store now

/-- The module-level `shouldStillProcess` variable (line 5 of
`src/lib/jobs.js`): declared outside the exported factory, so there is one
flag per process, shared by every controller instance. -/
def ModuleFlag := Bool
deriving instance DecidableEq for ModuleFlag

/-- Construction options (section 6): the connection URI token and the
optional idle poll interval. -/
structure Options where
  db : Nat
  pollInterval : Option Nat
deriving Repr, DecidableEq

/-- A controller instance returned by the exported factory
`module.exports = function(options)`. Its operations close over the
module-level flag, not over instance state, so below they act on the
shared `ModuleFlag`. -/
structure JobsApi where
  opts : Options
deriving Repr, DecidableEq

/-- The exported factory. -/
def mkJobs (o : Options) : JobsApi := ⟨o⟩

/-- `Jobs.stopProcessing` (lines 74-76): sets the shared flag false; it
does nothing else. -/
def JobsApi.stopProcessing (_self : JobsApi) (_flag : ModuleFlag) :
    ModuleFlag := false

/-- `Jobs.continueProcessing` (lines 78-80): reads the shared flag. -/
def JobsApi.continueProcessing (_self : JobsApi) (flag : ModuleFlag) :
    Bool := flag

/-- The first statement of `Jobs.process` (line 93):
`shouldStillProcess = true` on the shared flag. -/
def JobsApi.processStart (_self : JobsApi) (_flag : ModuleFlag) :
    ModuleFlag := true

/-! ## Helper lemmas -/

/-- After stamping `processed_at` and rewriting `data`/`due_at` for job `j`
(the two store writes of a successful service cycle), looking the job up by
id in a store with distinct ids yields exactly the rewritten row. -/
theorem stamped_write_find (j : Job) (pIn : Option Nat) (nd now : Nat) :
    ∀ store : List Job, (store.map Job.job_id).Nodup → j ∈ store →
      (jobsModel.write (jobsModel.setProcessedNow store j.job_id now)
          j.job_id pIn nd now).find? (fun x => x.job_id == j.job_id) =
        some { job_id := j.job_id, data := nd,
               due_at := pIn.map (fun d => now + d),
               processed_at := some now } := by
  intro store
  induction store with
  | nil => intro _ hj; cases hj
  | cons x xs ih =>
      intro hnd hj
      simp only [jobsModel.write, jobsModel.setProcessedNow, List.map_cons,
        List.map_cons] at *
      rcases List.mem_cons.mp hj with rfl | hmem
      · rw [if_pos rfl]
        rw [List.find?_cons_of_pos]
        · simp
        · simp
      · have hne : x.job_id ≠ j.job_id := by
          intro hEq
          have hmm : j.job_id ∈ xs.map Job.job_id :=
            List.mem_map_of_mem Job.job_id hmem
          exact (List.nodup_cons.mp hnd).1 (hEq ▸ hmm)
        rw [if_neg hne, if_neg hne]
        rw [List.find?_cons_of_neg]
        · exact ih (List.nodup_cons.mp hnd).2 hmem
        · simp [hne]

/-! ## Claims -/

/-- C1: in a service cycle with a healthy store, a null-error completion
stamps `processed_at` to now, rewrites `data` to `newData`, derives
`due_at` from `nextDelay` (an omitted argument collapsing to null, i.e. an
inactive job), and commits; a non-null-error completion rolls back,
leaving the committed store identical to before the cycle, whatever the
store oracle. -/
theorem C1_commit_on_success_rollback_on_error
    (store : List Job) (j : Job) (newData : Nat)
    (processIn : Option (Option Nat)) (e : JsErr) (oracle : StoreOracle)
    (now? : Bool) (now : Nat)
    (hnd : (store.map Job.job_id).Nodup) (hj : j ∈ store) :
    ((processJob store j (UserOutcome.success newData processIn)
        healthyStore now? now).2.2 = none ∧
     Act.txCommit ∈ (processJob store j (UserOutcome.success newData processIn)
        healthyStore now? now).2.1 ∧
     (processJob store j (UserOutcome.success newData processIn)
        healthyStore now? now).1.find? (fun x => x.job_id == j.job_id) =
       some { job_id := j.job_id, data := newData,
              due_at := processIn.join.map (fun d => now + d),
              processed_at := some now }) ∧
    processJob store j (UserOutcome.failure e) oracle now? now =
      (store, [Act.txBegin, Act.txRollback, Act.emit (commitEv now?)],
       some e) := by
  refine ⟨⟨rfl, ?_, ?_⟩, rfl⟩
  · simp [processJob, serviceJob, updateJob, healthyStore]
  · show (jobsModel.write (jobsModel.setProcessedNow store j.job_id now)
        j.job_id processIn.join newData now).find? _ = _
    exact stamped_write_find j processIn.join newData now store hnd hj

/-- C1 witness: a concrete one-job store serviced with new data 42 and a
5 ms next delay at time 7. -/
theorem C1_commit_on_success_rollback_on_error_witness :
    ((processJob [⟨1, 10, some 0, none⟩] ⟨1, 10, some 0, none⟩
        (UserOutcome.success 42 (some (some 5)))
        healthyStore false 7).2.2 = none ∧
     Act.txCommit ∈ (processJob [⟨1, 10, some 0, none⟩] ⟨1, 10, some 0, none⟩
        (UserOutcome.success 42 (some (some 5)))
        healthyStore false 7).2.1 ∧
     (processJob [⟨1, 10, some 0, none⟩] ⟨1, 10, some 0, none⟩
        (UserOutcome.success 42 (some (some 5)))
        healthyStore false 7).1.find? (fun x => x.job_id == (1 : Nat)) =
       some { job_id := 1, data := 42,
              due_at := (some (some 5) : Option (Option Nat)).join.map
                (fun d => 7 + d),
              processed_at := some 7 }) ∧
    processJob [⟨1, 10, some 0, none⟩] ⟨1, 10, some 0, none⟩
        (UserOutcome.failure (JsErr.code 9)) healthyStore false 7 =
      ([⟨1, 10, some 0, none⟩],
       [Act.txBegin, Act.txRollback, Act.emit (commitEv false)],
       some (JsErr.code 9)) :=
  C1_commit_on_success_rollback_on_error
    [⟨1, 10, some 0, none⟩] ⟨1, 10, some 0, none⟩ 42 (some (some 5))
    (JsErr.code 9) healthyStore false 7 (by decide) (by decide)

/-- C7 counterexample: in a concrete successful polling-driven cycle the
`jobUpdated` emission (index 3 of the trace) occurs strictly before the
`txCommit` (index 4), so `jobUpdated` does not fire "only after the
transaction's commit completes". -/
theorem C7_jobUpdated_before_commit :
    Act.emit Ev.jobUpdated ∈
      (processJob [⟨1, 10, some 0, none⟩] ⟨1, 10, some 0, none⟩
        (UserOutcome.success 42 none) healthyStore false 7).2.1 ∧
    Act.txCommit ∈
      (processJob [⟨1, 10, some 0, none⟩] ⟨1, 10, some 0, none⟩
        (UserOutcome.success 42 none) healthyStore false 7).2.1 ∧
    (processJob [⟨1, 10, some 0, none⟩] ⟨1, 10, some 0, none⟩
        (UserOutcome.success 42 none) healthyStore false 7).2.1.indexOf
        (Act.emit Ev.jobUpdated) <
    (processJob [⟨1, 10, some 0, none⟩] ⟨1, 10, some 0, none⟩
        (UserOutcome.success 42 none) healthyStore false 7).2.1.indexOf
        Act.txCommit := by
  decide

/-- C7 amended: in a successful service cycle the trace is exactly
begin, stamp, write, `jobUpdated`, commit, commit-notification - so
`jobUpdated` fires after the store write but before the commit, while the
commit notification (`processCommitted`/`processNowCommitted` by entry
point) does fire only after the transaction resolves; on a failed cycle it
likewise fires only after the rollback resolves. -/
theorem C7_commit_notification_after_resolution
    (store : List Job) (j : Job) (nd : Nat) (pIn : Option (Option Nat))
    (now? : Bool) (now : Nat) :
    (processJob store j (UserOutcome.success nd pIn)
        healthyStore now? now).2.1 =
      [Act.txBegin, Act.callSetProcessedNow, Act.callWrite,
       Act.emit Ev.jobUpdated, Act.txCommit, Act.emit (commitEv now?)] ∧
    ∀ (e : JsErr) (oracle : StoreOracle),
      (processJob store j (UserOutcome.failure e) oracle now? now).2.1 =
        [Act.txBegin, Act.txRollback, Act.emit (commitEv now?)] :=
  ⟨rfl, fun _ _ => rfl⟩

/-- C6 counterexample: the store reports error `code 3` from
`setProcessedNow`, yet the cycle is not aborted: the write and the commit
still happen, the iteration callback receives no error, and the stamp is
silently missing (`processed_at` stays `none`). The store error was
swallowed because line 68 of `src/lib/jobs.js` passes no callback. -/
theorem C6_setProcessedNow_error_swallowed :
    processJob [⟨1, 10, some 0, none⟩] ⟨1, 10, some 0, none⟩
        (UserOutcome.success 42 none) ⟨some (JsErr.code 3), none⟩ false 7 =
      ([⟨1, 42, none, none⟩],
       [Act.txBegin, Act.callSetProcessedNow, Act.callWrite,
        Act.emit Ev.jobUpdated, Act.txCommit, Act.emit Ev.processCommitted],
       none) := by
  decide

/-- C6 amended: an error reported by `jobsModel.write` aborts the cycle
(rollback, committed store unchanged) and is delivered to the iteration
callback, and a fetch error (`nextToProcess`/`getDataForJob`) is delivered
to the caller; only `setProcessedNow`, invoked without a callback, has its
errors discarded. -/
theorem C6_write_and_fetch_errors_delivered
    (store : List Job) (j : Job) (nd : Nat) (pIn : Option (Option Nat))
    (spn : Option JsErr) (e : JsErr) (now? : Bool) (now : Nat)
    (p : Option Nat) (u : UserOutcome) (o : StoreOracle) :
    processJob store j (UserOutcome.success nd pIn) ⟨spn, some e⟩ now? now =
      (store,
       [Act.txBegin, Act.callSetProcessedNow, Act.callWrite,
        Act.txRollback, Act.emit (commitEv now?)],
       some e) ∧
    getJobProcessor now? p store (FetchResult.fetchError e) u o now =
      (store, [], some e) :=
  ⟨rfl, rfl⟩

/-- C2 counterexample: the user function reports error `code 7` on the
first scripted iteration; although a second iteration is scripted and
`stopProcessing` is never called, the loop runs `finish` after a single
poll (`maybeServiceJob` is emitted once) - per-job errors terminate
`async.whilst`, the polling does not keep running. -/
theorem C2_user_error_ends_loop :
    (runWhilst none
        [⟨FetchResult.gotJob ⟨1, 10, some 0, none⟩,
          UserOutcome.failure (JsErr.code 7), healthyStore, false⟩,
         ⟨FetchResult.noJob, UserOutcome.success 0 none, healthyStore,
          false⟩]
        true [⟨1, 10, some 0, none⟩] 0).2.2 = LoopOutcome.finished ∧
    (runWhilst none
        [⟨FetchResult.gotJob ⟨1, 10, some 0, none⟩,
          UserOutcome.failure (JsErr.code 7), healthyStore, false⟩,
         ⟨FetchResult.noJob, UserOutcome.success 0 none, healthyStore,
          false⟩]
        true [⟨1, 10, some 0, none⟩] 0).2.1.count
      (Act.emit Ev.maybeServiceJob) = 1 := by
  decide

/-- C2 amended: an iteration whose callback carries an error (from the
user function or from the store) terminates the polling loop at that
iteration: the remaining script is not consumed, `finish` runs (releasing
the client and emitting `stopProcess`), and - matching the claim's last
part - the stop callback is invoked with no error, so only connect-time
failures ever reach it with an argument. -/
theorem C2_iteration_error_terminates_loop
    (p : Option Nat) (store : List Job) (it : IterInput)
    (rest : List IterInput) (now : Nat) (e : JsErr)
    (h : (processIter p store it now).2.2 = some e) :
    runWhilst p (it :: rest) true store now =
      ((processIter p store it now).1,
       (processIter p store it now).2.1 ++ finishTrace,
       LoopOutcome.finished) ∧
    Act.done none ∈ (runWhilst p (it :: rest) true store now).2.1 := by
  rcases hr : processIter p store it now with ⟨s2, acts, err⟩
  rw [hr] at h
  simp only at h
  subst h
  constructor
  · simp [runWhilst, hr]
  · simp [runWhilst, hr, finishTrace]

/-- C2 witness: the run of the counterexample script, whose first
iteration errors with `code 7`. -/
theorem C2_iteration_error_terminates_loop_witness :
    (runWhilst none
        [⟨FetchResult.gotJob ⟨1, 10, some 0, none⟩,
          UserOutcome.failure (JsErr.code 7), healthyStore, false⟩,
         ⟨FetchResult.noJob, UserOutcome.success 0 none, healthyStore,
          false⟩]
        true [⟨1, 10, some 0, none⟩] 0 =
      ((processIter none [⟨1, 10, some 0, none⟩]
          ⟨FetchResult.gotJob ⟨1, 10, some 0, none⟩,
           UserOutcome.failure (JsErr.code 7), healthyStore, false⟩ 0).1,
       (processIter none [⟨1, 10, some 0, none⟩]
          ⟨FetchResult.gotJob ⟨1, 10, some 0, none⟩,
           UserOutcome.failure (JsErr.code 7), healthyStore, false⟩ 0).2.1
         ++ finishTrace,
       LoopOutcome.finished)) ∧
    Act.done none ∈ (runWhilst none
        [⟨FetchResult.gotJob ⟨1, 10, some 0, none⟩,
          UserOutcome.failure (JsErr.code 7), healthyStore, false⟩,
         ⟨FetchResult.noJob, UserOutcome.success 0 none, healthyStore,
          false⟩]
        true [⟨1, 10, some 0, none⟩] 0).2.1 :=
  C2_iteration_error_terminates_loop none [⟨1, 10, some 0, none⟩]
    ⟨FetchResult.gotJob ⟨1, 10, some 0, none⟩,
     UserOutcome.failure (JsErr.code 7), healthyStore, false⟩
    [⟨FetchResult.noJob, UserOutcome.success 0 none, healthyStore, false⟩]
    0 (JsErr.code 7) (by decide)

/-- C4 counterexample: a store error from `nextToProcess` (`code 7`) ends
the loop, but the stop callback is invoked with no argument: the
terminating error is never passed to `done`. -/
theorem C4_terminating_error_not_passed :
    (runWhilst none
        [⟨FetchResult.fetchError (JsErr.code 7),
          UserOutcome.success 0 none, healthyStore, false⟩]
        true [] 0).2.2 = LoopOutcome.finished ∧
    Act.done (some (JsErr.code 7)) ∉ (runWhilst none
        [⟨FetchResult.fetchError (JsErr.code 7),
          UserOutcome.success 0 none, healthyStore, false⟩]
        true [] 0).2.1 ∧
    Act.done none ∈ (runWhilst none
        [⟨FetchResult.fetchError (JsErr.code 7),
          UserOutcome.success 0 none, healthyStore, false⟩]
        true [] 0).2.1 := by
  decide

/-- C4 amended: whenever the polling loop terminates, its trace ends with
`finish`: release the connection, emit `stopProcess`, and call the
onStop/done callback with no argument - any error that caused the
termination is discarded rather than passed on. -/
theorem C4_finish_always_runs (p : Option Nat) :
    ∀ (iters : List IterInput) (flag : Bool) (store : List Job) (now : Nat),
      (runWhilst p iters flag store now).2.2 = LoopOutcome.finished →
      finishTrace <:+ (runWhilst p iters flag store now).2.1 := by
  intro iters
  induction iters with
  | nil =>
      intro flag store now h
      cases flag
      · exact List.suffix_refl _
      · simp [runWhilst] at h
  | cons it rest ih =>
      intro flag store now h
      cases flag
      · exact List.suffix_refl _
      · rcases hr : processIter p store it now with ⟨s2, acts, err⟩
        cases err with
        | some e =>
            simp only [runWhilst, hr]
            exact List.suffix_append _ _
        | none =>
            simp only [runWhilst, hr] at h ⊢
            obtain ⟨t, ht⟩ := ih (!it.stopDuring) s2 (now + 1) h
            exact ⟨acts ++ t, by rw [List.append_assoc, ht]⟩

/-- C4 witness: the loop from the counterexample run terminates, and its
trace indeed ends with the `finish` actions. -/
theorem C4_finish_always_runs_witness :
    (runWhilst none
        [⟨FetchResult.fetchError (JsErr.code 7),
          UserOutcome.success 0 none, healthyStore, false⟩]
        true [] 0).2.2 = LoopOutcome.finished ∧
    finishTrace <:+ (runWhilst none
        [⟨FetchResult.fetchError (JsErr.code 7),
          UserOutcome.success 0 none, healthyStore, false⟩]
        true [] 0).2.1 :=
  ⟨by decide,
   C4_finish_always_runs none
     [⟨FetchResult.fetchError (JsErr.code 7),
       UserOutcome.success 0 none, healthyStore, false⟩]
     true [] 0 (by decide)⟩

/-- C3 counterexample: when `obtainLock` fails (store error `code 3`),
`Jobs.processNow` fires its completion callback directly from `gotLock`
(line 128) - the connection is never returned: `releaseClient` is absent
from the trace although `done` fired. -/
theorem C3_lock_failure_leaks_connection :
    (Jobs.processNow
        ⟨none, some (JsErr.code 3), FetchResult.noJob,
         UserOutcome.success 1 none, healthyStore⟩
        none [⟨1, 10, some 0, none⟩] 7).2 =
      [Act.callObtainLock, Act.done (some (JsErr.code 3))] ∧
    Act.releaseClient ∉ (Jobs.processNow
        ⟨none, some (JsErr.code 3), FetchResult.noJob,
         UserOutcome.success 1 none, healthyStore⟩
        none [⟨1, 10, some 0, none⟩] 7).2 := by
  decide

/-- C3 amended: once the lock has been obtained, every exit path of
`Jobs.processNow` - fetch error, missing snapshot, user processing error,
commit or rollback - releases the lock and returns the connection
immediately before the completion callback, which is the trace's final
action; but when `obtainLock` itself fails, the callback fires without the
connection being returned. -/
theorem C3_release_after_lock_obtained
    (p : Option Nat) (store : List Job) (now : Nat) (fetch : FetchResult)
    (u : UserOutcome) (o : StoreOracle) :
    (∃ err : Option JsErr,
      [Act.callUnlock, Act.releaseClient, Act.done err] <:+
        (Jobs.processNow ⟨none, none, fetch, u, o⟩ p store now).2) ∧
    ∀ e : JsErr,
      (Jobs.processNow ⟨none, some e, fetch, u, o⟩ p store now).2 =
        [Act.callObtainLock, Act.done (some e)] := by
  constructor
  · refine ⟨(getJobProcessor true p store fetch u o now).2.2, ?_⟩
    show _ <:+ Act.callObtainLock :: Act.callGetDataForJob ::
      (getJobProcessor true p store fetch u o now).2.1 ++ _
    exact (List.suffix_append _ _).trans
      ((List.suffix_cons _ _).trans (List.suffix_cons _ _))
  · intro e
    rfl

/-- C5: for an id matching no job in the store, `Jobs.processNow` fails
through its callback with the job-not-found error and its trace never
contains a `jobUpdated` emission; by contrast the polling-path processor
treats an empty `nextToProcess` result as normal: no error, one `drain`
emission, then a sleep. -/
theorem C5_processNow_unknown_id
    (store : List Job) (jobId : Nat) (u : UserOutcome) (o : StoreOracle)
    (p : Option Nat) (now : Nat)
    (habs : ∀ j ∈ store, j.job_id ≠ jobId) :
    Jobs.processNowOn store jobId u o p now =
      (store, [Act.callObtainLock,
               Act.done (some JsErr.couldNotLocateJob)]) ∧
    Act.emit Ev.jobUpdated ∉ (Jobs.processNowOn store jobId u o p now).2 ∧
    getJobProcessor false p store FetchResult.noJob u o now =
      (store, [Act.emit Ev.drain, Act.sleep (jsOr p 1000)], none) := by
  have hlock : jobsModel.obtainLock store jobId =
      some JsErr.couldNotLocateJob := by
    have : store.any (fun j => j.job_id == jobId) = false := by
      simp only [List.any_eq_false]
      intro j hj
      simpa using habs j hj
    simp [jobsModel.obtainLock, this]
  have hmain : Jobs.processNowOn store jobId u o p now =
      (store, [Act.callObtainLock,
               Act.done (some JsErr.couldNotLocateJob)]) := by
    simp [Jobs.processNowOn, Jobs.processNow, hlock]
  refine ⟨hmain, ?_, rfl⟩
  rw [hmain]
  simp

/-- C5 witness: id 2 against a store holding only job 1. -/
theorem C5_processNow_unknown_id_witness :
    Jobs.processNowOn [⟨1, 10, some 0, none⟩] 2
        (UserOutcome.success 42 none) healthyStore none 7 =
      ([⟨1, 10, some 0, none⟩],
       [Act.callObtainLock,
        Act.done (some JsErr.couldNotLocateJob)]) ∧
    Act.emit Ev.jobUpdated ∉ (Jobs.processNowOn [⟨1, 10, some 0, none⟩] 2
        (UserOutcome.success 42 none) healthyStore none 7).2 ∧
    getJobProcessor false none [⟨1, 10, some 0, none⟩] FetchResult.noJob
        (UserOutcome.success 42 none) healthyStore 7 =
      ([⟨1, 10, some 0, none⟩],
       [Act.emit Ev.drain, Act.sleep (jsOr none 1000)], none) :=
  C5_processNow_unknown_id [⟨1, 10, some 0, none⟩] 2
    (UserOutcome.success 42 none) healthyStore none 7 (by decide)

/-- C8: an empty poll emits exactly one `drain` and then sleeps for
`pollInterval || 1000` ms - exactly 1000 when `pollInterval` is unset, and
never less than a configured `pollInterval` - and in the loop the next
`nextToProcess` query can only occur in the continuation whose actions all
follow that sleep. -/
theorem C8_idle_backoff
    (p : Option Nat) (store : List Job) (u : UserOutcome) (o : StoreOracle)
    (rest : List IterInput) (now : Nat) :
    processIter p store ⟨FetchResult.noJob, u, o, false⟩ now =
      (store,
       [Act.emit Ev.maybeServiceJob, Act.callNextToProcess,
        Act.emit Ev.drain, Act.sleep (jsOr p 1000)], none) ∧
    [Act.emit Ev.maybeServiceJob, Act.callNextToProcess,
     Act.emit Ev.drain, Act.sleep (jsOr p 1000)].count
      (Act.emit Ev.drain) = 1 ∧
    (p = none → jsOr p 1000 = 1000) ∧
    (∀ v, p = some v → v ≤ jsOr p 1000) ∧
    runWhilst p (⟨FetchResult.noJob, u, o, false⟩ :: rest) true store now =
      ((runWhilst p rest true store (now + 1)).1,
       [Act.emit Ev.maybeServiceJob, Act.callNextToProcess,
        Act.emit Ev.drain, Act.sleep (jsOr p 1000)]
         ++ (runWhilst p rest true store (now + 1)).2.1,
       (runWhilst p rest true store (now + 1)).2.2) := by
  refine ⟨rfl, by simp [List.count_cons], ?_, ?_, ?_⟩
  · intro h; subst h; rfl
  · intro v h
    subst h
    by_cases hv : v = 0
    · subst hv; simp [jsOr]
    · simp [jsOr, hv]
  · simp [runWhilst, processIter, getJobProcessor]

/-- C8 witness: an empty poll with `pollInterval` unset, followed by an
empty script. -/
theorem C8_idle_backoff_witness :
    processIter none [] ⟨FetchResult.noJob, UserOutcome.success 0 none,
        healthyStore, false⟩ 0 =
      ([],
       [Act.emit Ev.maybeServiceJob, Act.callNextToProcess,
        Act.emit Ev.drain, Act.sleep (jsOr none 1000)], none) ∧
    [Act.emit Ev.maybeServiceJob, Act.callNextToProcess,
     Act.emit Ev.drain, Act.sleep (jsOr none 1000)].count
      (Act.emit Ev.drain) = 1 ∧
    ((none : Option Nat) = none → jsOr none 1000 = 1000) ∧
    (∀ v, (none : Option Nat) = some v → v ≤ jsOr none 1000) ∧
    runWhilst none [⟨FetchResult.noJob, UserOutcome.success 0 none,
        healthyStore, false⟩] true [] 0 =
      ((runWhilst none [] true [] 1).1,
       [Act.emit Ev.maybeServiceJob, Act.callNextToProcess,
        Act.emit Ev.drain, Act.sleep (jsOr none 1000)]
         ++ (runWhilst none [] true [] 1).2.1,
       (runWhilst none [] true [] 1).2.2) :=
  C8_idle_backoff none [] (UserOutcome.success 0 none) healthyStore [] 0

/-- Whatever the user function reports and whatever the store answers, a
service cycle's trace ends with the commit notification, emitted by
`txDone` after the transaction resolved. -/
theorem processJob_trace_ends_with_commitEv (store : List Job) (j : Job)
    (u : UserOutcome) (o : StoreOracle) (now? : Bool) (now : Nat) :
    [Act.emit (commitEv now?)] <:+ (processJob store j u o now? now).2.1 := by
  rcases u with e | ⟨nd, pIn⟩
  · exact ⟨[Act.txBegin, Act.txRollback], rfl⟩
  · rcases o with ⟨spn, wf⟩
    rcases wf with _ | e
    · exact ⟨[Act.txBegin, Act.callSetProcessedNow, Act.callWrite,
        Act.emit Ev.jobUpdated, Act.txCommit], rfl⟩
    · exact ⟨[Act.txBegin, Act.callSetProcessedNow, Act.callWrite,
        Act.txRollback], rfl⟩

/-- C9: `stopProcessing` only sets the continue-flag false; a loop
iteration during which it is called still runs its whole service cycle
(all of the cycle's actions, through the resolution of its transaction and
the commit notification that ends its trace, appear in the run), the loop
exits at the next iteration boundary without consuming the rest of the
script, and only then does `finish` emit `stopProcess`. -/
theorem C9_stop_not_preemptive
    (p : Option Nat) (store : List Job) (j : Job) (u : UserOutcome)
    (o : StoreOracle) (rest : List IterInput) (now : Nat)
    (A : JobsApi) (f : ModuleFlag) :
    A.stopProcessing f = false ∧
    runWhilst p (⟨FetchResult.gotJob j, u, o, true⟩ :: rest) true store now =
      ((processIter p store ⟨FetchResult.gotJob j, u, o, true⟩ now).1,
       (processIter p store ⟨FetchResult.gotJob j, u, o, true⟩ now).2.1
         ++ finishTrace,
       LoopOutcome.finished) ∧
    [Act.emit Ev.processCommitted] <:+
      (processIter p store ⟨FetchResult.gotJob j, u, o, true⟩ now).2.1 := by
  refine ⟨rfl, ?_, ?_⟩
  · rcases hr : processIter p store ⟨FetchResult.gotJob j, u, o, true⟩ now
      with ⟨s2, acts, err⟩
    cases err with
    | some e => simp [runWhilst, hr]
    | none => simp [runWhilst, hr]
  · have h := processJob_trace_ends_with_commitEv store j u o false now
    exact h.trans ((List.suffix_cons _ _).trans (List.suffix_cons _ _))

/-- C10: the continue-flag lives at module level, so two controller
instances built by calling the exported factory twice share it: instance
A calling `stopProcessing` makes instance B's `continueProcessing` read
false, which halts B's polling loop at its next iteration boundary
(whatever its script still holds), and A entering `process` resets the
shared flag to true for B as well. -/
theorem C10_flag_shared_across_instances
    (oA oB : Options) (f : ModuleFlag) (p : Option Nat)
    (iters : List IterInput) (store : List Job) (now : Nat) :
    (mkJobs oB).continueProcessing ((mkJobs oA).stopProcessing f) = false ∧
    (mkJobs oB).continueProcessing ((mkJobs oA).processStart f) = true ∧
    runWhilst p iters ((mkJobs oA).stopProcessing f) store now =
      (store, finishTrace, LoopOutcome.finished) := by
  refine ⟨rfl, rfl, ?_⟩
  cases iters <;> rfl
